import Mathlib

/-!
Verification of the `state_propogator` repository: a two-body orbital
propagator whose dynamics (`Orbit::system`) and entry points (`propagate`)
live in `src/lib.rs` and `src/propagate.rs`, with the adaptive
Dormand-Prince 5(4) stepping loop supplied by the external `ode_solvers`
crate.  Floating-point numbers are modelled as real numbers.
-/

open scoped BigOperators

/-- A six-component state vector: position components `0,1,2` and velocity
components `3,4,5` (`Vector6<f64>` in the source). -/
abbrev StateVec := Fin 6 → ℝ

/-- The integration error kinds of the specification's section 7.  The
external `ode_solvers` integrator produces the step-count and step-size
failures; the other kinds are enumerated by the specification. -/
inductive IntegrationError where
  | InvalidConfig
  | SingularState
  | NonFiniteResult
  | StepSizeUnderflow
  | MaxStepsExceeded
  deriving DecidableEq

/-- Observable outcome of calling a Rust function that can return a value,
return an error value, or abort the process (panic). -/
inductive RunOutcome (α : Type) where
  | ok (value : α)
  | err (e : IntegrationError)
  | panic (msg : String)

/-- Rust's `Result::expect`: unwrap an `Ok`; abort the process with the
given message on an `Err`. -/
def expectOutcome {α : Type} (r : Except IntegrationError α) (msg : String) : RunOutcome α :=
  match r with
  | .ok a => .ok a
  | .error _ => .panic msg

/-- Map over the returned value of a run outcome. -/
def RunOutcome.map {α β : Type} (f : α → β) : RunOutcome α → RunOutcome β
  | .ok a => .ok (f a)
  | .err e => .err e
  | .panic m => .panic m

namespace LibRs

/-- The dynamics model of `src/lib.rs`: a single immutable gravitational
parameter `mu`. -/
structure Orbit where
  mu : ℝ

/-- `Orbit::system` from `src/lib.rs` lines 20-28 (Kepler equations of
motion): `denominator = (y0^2 + y1^2 + y2^2)^(3/2)` via `powf`, the first
three derivative components are the velocity, the last three are
`-mu * y_i / denominator`. -/
noncomputable def Orbit.system (o : Orbit) (_t : ℝ) (y : StateVec) : StateVec :=
  let denominator : ℝ := (y 0 ^ (2 : ℝ) + y 1 ^ (2 : ℝ) + y 2 ^ (2 : ℝ)) ^ ((3 : ℝ) / 2)
  ![y 3, y 4, y 5,
    -o.mu * y 0 / denominator, -o.mu * y 1 / denominator, -o.mu * y 2 / denominator]

/-- Outcome of one `Orbit::system` call as `src/lib.rs` implements it: the
Rust method is infallible — it writes `dy` and returns; it has no error
path (in particular no singularity check). -/
noncomputable def Orbit.systemRun (o : Orbit) (t : ℝ) (y : StateVec) : Except IntegrationError StateVec :=
  .ok (o.system t y)

end LibRs

namespace PropagateRs

/-- The dynamics model of `src/propagate.rs`: a single immutable
gravitational parameter `mu`. -/
structure Orbit where
  mu : ℝ

/-- `Orbit::system` from `src/propagate.rs` lines 19-27, textually identical
to the one in `src/lib.rs`. -/
noncomputable def Orbit.system (o : Orbit) (_t : ℝ) (y : StateVec) : StateVec :=
  let denominator : ℝ := (y 0 ^ (2 : ℝ) + y 1 ^ (2 : ℝ) + y 2 ^ (2 : ℝ)) ^ ((3 : ℝ) / 2)
  ![y 3, y 4, y 5,
    -o.mu * y 0 / denominator, -o.mu * y 1 / denominator, -o.mu * y 2 / denominator]

/-- Outcome of one `Orbit::system` call as `src/propagate.rs` implements it:
the Rust method is infallible — it has no error path and no singularity
check. -/
noncomputable def Orbit.systemRun (o : Orbit) (t : ℝ) (y : StateVec) : Except IntegrationError StateVec :=
  .ok (o.system t y)

end PropagateRs

/-- The position magnitude `r = sqrt(y0^2 + y1^2 + y2^2)` of a state vector
(the quantity the specification's dynamics contract divides by, cubed). -/
noncomputable def posMagnitude (y : StateVec) : ℝ :=
  Real.sqrt (y 0 ^ 2 + y 1 ^ 2 + y 2 ^ 2)

/-- Modelled from the spec: one Dormand-Prince 5(4) trial step (section 4.2,
steps 1-2) of the external `ode_solvers` Dopri5 stepper, which is not part
of this repository's sources.  Seven stage derivatives with the standard
publicly documented tableau, the fifth-order update `y5` and the embedded
fourth-order estimate `y4`; returns `(y5, y4)`. -/
noncomputable def dpTrial (f : ℝ → StateVec → StateVec) (t : ℝ) (y : StateVec) (h : ℝ) :
    StateVec × StateVec :=
  let k1 := f t y
  let k2 := f (t + h / 5) (y + (h / 5) • k1)
  let k3 := f (t + 3 * h / 10) (y + (3 * h / 40) • k1 + (9 * h / 40) • k2)
  let k4 := f (t + 4 * h / 5)
    (y + (44 * h / 45) • k1 - (56 * h / 15) • k2 + (32 * h / 9) • k3)
  let k5 := f (t + 8 * h / 9)
    (y + (19372 * h / 6561) • k1 - (25360 * h / 2187) • k2 + (64448 * h / 6561) • k3
      - (212 * h / 729) • k4)
  let k6 := f (t + h)
    (y + (9017 * h / 3168) • k1 - (355 * h / 33) • k2 + (46732 * h / 5247) • k3
      + (49 * h / 176) • k4 - (5103 * h / 18656) • k5)
  let y5 := y + (35 * h / 384) • k1 + (500 * h / 1113) • k3 + (125 * h / 192) • k4
      - (2187 * h / 6784) • k5 + (11 * h / 84) • k6
  let k7 := f (t + h) y5
  let y4 := y + (5179 * h / 57600) • k1 + (7571 * h / 16695) • k3 + (393 * h / 640) • k4
      - (92097 * h / 339200) • k5 + (187 * h / 2100) • k6 + (h / 40) • k7
  (y5, y4)

/-- Modelled from the spec: the scaled RMS error estimate of section 4.2
step 3: `e_i = y5_i - y4_i`, `sc_i = atol + rtol * max(|y_i|, |y5_i|)`,
`err = sqrt(mean((e_i / sc_i)^2))`. -/
noncomputable def errNorm (rtol atol : ℝ) (y y5 y4 : StateVec) : ℝ :=
  Real.sqrt ((∑ i : Fin 6, ((y5 i - y4 i) / (atol + rtol * max |y i| |y5 i|)) ^ 2) / 6)

/-- Modelled from the spec: the step-size factor of section 4.2 step 5:
`clamp(safety * err^(-1/5), fac_min, fac_max)` with `safety = 0.9`,
`fac_min = 0.2`, `fac_max = 5.0`. -/
noncomputable def stepFactor (err : ℝ) : ℝ :=
  min 5.0 (max 0.2 (0.9 * err ^ (-(1 : ℝ) / 5)))

/-- Configuration of one integration run: tolerances, initial step, time
span, step-count ceiling and minimum step (spec section 3,
`IntegrationConfig`). -/
structure DPConfig where
  rtol : ℝ
  atol : ℝ
  hInit : ℝ
  tStart : ℝ
  tEnd : ℝ
  maxSteps : ℕ
  hMin : ℝ

/-- Modelled from the spec: the library's internal default ceiling on the
number of trial steps (section 9 notes the source relies on unspecified
library-internal defaults; the exact value is an implementation choice). -/
def libraryDefaultMaxSteps : ℕ := 100000

/-- Modelled from the spec: the library-internal minimum step size below
which the integration fails with `StepSizeUnderflow`.  Section 9 notes the
source clamps nothing explicitly, so the floor is zero here. -/
def libraryDefaultMinStep : ℝ := 0

/-- Modelled from the spec: the adaptive stepping loop of the external
`ode_solvers` Dopri5 stepper (spec section 4.2, steps 3-8), which is not
part of this repository's sources.  `fuel` bounds the number of remaining
trial steps.  Each trial step is clipped so the time never overshoots
`tEnd`; a step is accepted when the scaled error is at most `1`, advancing
the time and appending the accepted `(time, state)` sample; otherwise it is
rejected and retried with the resized step.  The real-number model has no
non-finite values, so section 4.2's `NonFiniteResult` branch has no
counterpart here. -/
noncomputable def dpLoop (f : ℝ → StateVec → StateVec) (cfg : DPConfig) :
    ℕ → ℝ → StateVec → ℝ → List (ℝ × StateVec) →
    Except IntegrationError (List (ℝ × StateVec))
  | 0, t, _y, _h, traj =>
    if cfg.tEnd ≤ t then .ok traj else .error .MaxStepsExceeded
  | fuel + 1, t, y, h, traj =>
    if cfg.tEnd ≤ t then .ok traj
    else
      let hStep := min h (cfg.tEnd - t)
      let trial := dpTrial f t y hStep
      let err := errNorm cfg.rtol cfg.atol y trial.1 trial.2
      let hNext := hStep * stepFactor err
      if hNext < cfg.hMin then .error .StepSizeUnderflow
      else if err ≤ 1 then
        dpLoop f cfg fuel (t + hStep) trial.1 hNext (traj ++ [(t + hStep, trial.1)])
      else
        dpLoop f cfg fuel t y hNext traj

/-- Modelled from the spec: `Dopri5::new` followed by `Dopri5::integrate`
of the external `ode_solvers` crate.  The recorder starts with the sample
`(tStart, y0)` and, on success, holds the accepted samples in order. -/
noncomputable def dopri5Integrate (f : ℝ → StateVec → StateVec) (cfg : DPConfig)
    (y0 : StateVec) : Except IntegrationError (List (ℝ × StateVec)) :=
  dpLoop f cfg cfg.maxSteps cfg.tStart y0 cfg.hInit [(cfg.tStart, y0)]

/-- The result plumbing shared by both `propagate` functions (`src/lib.rs`
lines 58-63, `src/propagate.rs` lines 53-58): run the integration result
through Rust's `expect` — aborting the process on any error — then return
the recorded state history `y_out().to_vec()`, which keeps only the state
vectors and discards the sample times. -/
def propagatePlumbing (r : Except IntegrationError (List (ℝ × StateVec)))
    (msg : String) : RunOutcome (List StateVec) :=
  (expectOutcome r msg).map (List.map Prod.snd)

namespace LibRs

/-- The integration configuration hard-coded by `propagate` in `src/lib.rs`:
`rtol = 1e-6`, `atol = 1e-8`, `time_start = 0`, time of flight
`6.189400 * 86400` seconds, initial step `10.0`; step ceiling and minimum
step are the library's internal defaults. -/
noncomputable def config : DPConfig :=
  { rtol := 1e-6, atol := 1e-8, hInit := 10.0, tStart := 0,
    tEnd := 6.189400 * 86400.0, maxSteps := libraryDefaultMaxSteps,
    hMin := libraryDefaultMinStep }

/-- The integration performed inside `propagate` of `src/lib.rs`: the
Kepler system with `mu = 1.327e11` run through the Dopri5 stepper with the
hard-coded configuration. -/
noncomputable def integration (state_vector : StateVec) :
    Except IntegrationError (List (ℝ × StateVec)) :=
  dopri5Integrate (Orbit.mk (1.327e11)).system config state_vector

/-- `propagate` from `src/lib.rs` lines 40-64: integrate, abort the process
on error (`expect`), and return the recorded state vectors. -/
noncomputable def propagate (state_vector : StateVec) : RunOutcome (List StateVec) :=
  propagatePlumbing (integration state_vector)
    "ERROR: Unable to integrate provided parameters."

end LibRs

namespace PropagateRs

/-- The integration configuration hard-coded by `propagate` in
`src/propagate.rs` for a given time of flight: `rtol = 1e-6`,
`atol = 1e-8`, `time_start = 0`, initial step `10.0`. -/
noncomputable def config (time_of_flight_sec : ℝ) : DPConfig :=
  { rtol := 1e-6, atol := 1e-8, hInit := 10.0, tStart := 0,
    tEnd := time_of_flight_sec, maxSteps := libraryDefaultMaxSteps,
    hMin := libraryDefaultMinStep }

/-- The integration performed inside `propagate` of `src/propagate.rs`. -/
noncomputable def integration (state_vector : StateVec) (time_of_flight_sec : ℝ) :
    Except IntegrationError (List (ℝ × StateVec)) :=
  dopri5Integrate (Orbit.mk (1.327e11)).system (config time_of_flight_sec) state_vector

/-- `propagate` from `src/propagate.rs` lines 37-59: integrate for the
given time of flight, abort the process on error (`expect`), and return the
recorded state vectors. -/
noncomputable def propagate (state_vector : StateVec) (time_of_flight_sec : ℝ) :
    RunOutcome (List StateVec) :=
  propagatePlumbing (integration state_vector time_of_flight_sec)
    "ERROR: Unable to integrate provided parameters."

end PropagateRs

/-- Modelled from the spec: the parameterized entry point of spec section 6
with the eager configuration validation of section 7 (`InvalidConfig`
before the stepping loop).  No such entry point exists under `src/`: both
source files hard-code the tolerances and initial step and validate
nothing.  The dynamics is passed as a function so that the validation is
visibly independent of it. -/
noncomputable def specPropagateWith (f : ℝ → StateVec → StateVec) (initial_state : StateVec)
    (t_start t_end initial_step rtol atol : ℝ) (max_steps : ℕ) :
    Except IntegrationError (List (ℝ × StateVec)) :=
  if rtol ≤ 0 ∨ atol ≤ 0 ∨ initial_step ≤ 0 ∨ max_steps = 0 then
    .error .InvalidConfig
  else
    dopri5Integrate f
      { rtol := rtol, atol := atol, hInit := initial_step, tStart := t_start,
        tEnd := t_end, maxSteps := max_steps, hMin := libraryDefaultMinStep }
      initial_state

/-- Modelled from the spec: the section 6 entry point applied to the Kepler
dynamics model with gravitational parameter `mu`. -/
noncomputable def specPropagate (initial_state : StateVec) (mu : ℝ)
    (t_start t_end initial_step rtol atol : ℝ) (max_steps : ℕ) :
    Except IntegrationError (List (ℝ × StateVec)) :=
  specPropagateWith (PropagateRs.Orbit.mk mu).system initial_state
    t_start t_end initial_step rtol atol max_steps

/-- The zero state vector, a concrete input whose position magnitude is
exactly zero. -/
def zeroState : StateVec := fun _ => 0

/-- A concrete state vector with position magnitude one. -/
noncomputable def unitX : StateVec := ![1, 0, 0, 0, 0, 0]

/-! ## Helper lemmas -/

lemma rpow_two_eq_sq (x : ℝ) : x ^ (2 : ℝ) = x ^ 2 := by
  rw [← Real.rpow_natCast x 2]; norm_num

lemma rpow_three_halves (s : ℝ) (hs : 0 ≤ s) : s ^ ((3 : ℝ) / 2) = Real.sqrt s ^ 3 := by
  rw [Real.sqrt_eq_rpow, ← Real.rpow_natCast (s ^ ((1 : ℝ) / 2)) 3, ← Real.rpow_mul hs]
  norm_num

lemma posMagnitude_unitX : posMagnitude unitX ≠ 0 := by
  have : posMagnitude unitX = 1 := by
    simp [posMagnitude, unitX]
  rw [this]; exact one_ne_zero

lemma stepFactor_pos (err : ℝ) : 0 < stepFactor err := by
  unfold stepFactor
  apply lt_min
  · norm_num
  · exact lt_max_of_lt_left (by norm_num)

lemma dpLoop_stop (f : ℝ → StateVec → StateVec) (cfg : DPConfig) (fuel : ℕ) (t : ℝ)
    (y : StateVec) (h : ℝ) (traj : List (ℝ × StateVec)) (ht : cfg.tEnd ≤ t) :
    dpLoop f cfg fuel t y h traj = .ok traj := by
  cases fuel <;> simp [dpLoop, ht]

lemma chain_lt_append_last {l : List ℝ} {t u : ℝ}
    (hc : l.Chain' (· < ·)) (hl : l.getLast? = some t) (htu : t < u) :
    (l ++ [u]).Chain' (· < ·) ∧ (l ++ [u]).getLast? = some u := by
  constructor
  · refine List.chain'_append.mpr ⟨hc, List.chain'_singleton u, ?_⟩
    intro x hx z hz
    rw [hl, Option.mem_some_iff] at hx
    simp only [List.head?_cons, Option.mem_some_iff] at hz
    subst hx
    subst hz
    exact htu
  · exact List.getLast?_concat _

lemma dpLoop_ok_invariant (f : ℝ → StateVec → StateVec) (cfg : DPConfig) :
    ∀ (fuel : ℕ) (t : ℝ) (y : StateVec) (h : ℝ) (traj res : List (ℝ × StateVec)),
      0 < h → t ≤ cfg.tEnd →
      (traj.map Prod.fst).Chain' (· < ·) →
      (traj.map Prod.fst).getLast? = some t →
      dpLoop f cfg fuel t y h traj = .ok res →
      (res.map Prod.fst).Chain' (· < ·) ∧
        (res.map Prod.fst).getLast? = some cfg.tEnd ∧
        res.head? = traj.head? := by
  intro fuel
  induction fuel with
  | zero =>
    intro t y h traj res hh hle hchain hlast hok
    simp only [dpLoop] at hok
    split at hok
    · next ht =>
      cases hok
      exact ⟨hchain, by rw [hlast, le_antisymm hle ht], rfl⟩
    · exact absurd hok (by simp)
  | succ n ih =>
    intro t y h traj res hh hle hchain hlast hok
    simp only [dpLoop] at hok
    split at hok
    · next ht =>
      cases hok
      exact ⟨hchain, by rw [hlast, le_antisymm hle ht], rfl⟩
    · next ht =>
      have htlt : t < cfg.tEnd := lt_of_not_le ht
      have hstep : 0 < min h (cfg.tEnd - t) := lt_min hh (sub_pos.mpr htlt)
      have htne : traj ≠ [] := by
        intro hnil; rw [hnil] at hlast; simp at hlast
      split at hok
      · exact absurd hok (by simp)
      · split at hok
        · -- accepted step
          obtain ⟨hc, hl, hd⟩ :=
            ih _ _ _ _ _ (mul_pos hstep (stepFactor_pos _))
              (by have := min_le_right h (cfg.tEnd - t); linarith)
              (by
                simp only [List.map_append, List.map_cons, List.map_nil]
                exact (chain_lt_append_last hchain hlast
                  (lt_add_of_pos_right t hstep)).1)
              (by
                simp only [List.map_append, List.map_cons, List.map_nil]
                exact (chain_lt_append_last hchain hlast
                  (lt_add_of_pos_right t hstep)).2)
              hok
          refine ⟨hc, hl, ?_⟩
          rw [hd]
          cases traj with
          | nil => exact absurd rfl htne
          | cons a l => rfl
        · -- rejected step
          exact ih _ _ _ _ _ (mul_pos hstep (stepFactor_pos _)) hle hchain hlast hok

lemma dpLoop_ok_head (f : ℝ → StateVec → StateVec) (cfg : DPConfig) :
    ∀ (fuel : ℕ) (t : ℝ) (y : StateVec) (h : ℝ) (traj res : List (ℝ × StateVec)),
      traj ≠ [] → dpLoop f cfg fuel t y h traj = .ok res →
      res.head? = traj.head? ∧ res ≠ [] := by
  intro fuel
  induction fuel with
  | zero =>
    intro t y h traj res htne hok
    simp only [dpLoop] at hok
    split at hok
    · cases hok; exact ⟨rfl, htne⟩
    · exact absurd hok (by simp)
  | succ n ih =>
    intro t y h traj res htne hok
    simp only [dpLoop] at hok
    split at hok
    · cases hok; exact ⟨rfl, htne⟩
    · split at hok
      · exact absurd hok (by simp)
      · split at hok
        · obtain ⟨hd, hne⟩ := ih _ _ _ _ _ (by simp) hok
          refine ⟨?_, hne⟩
          rw [hd]
          cases traj with
          | nil => exact absurd rfl htne
          | cons a l => rfl
        · exact ih _ _ _ _ _ htne hok

lemma integration_zero_tof (sv : StateVec) :
    PropagateRs.integration sv 0 = .ok [((0 : ℝ), sv)] := by
  unfold PropagateRs.integration dopri5Integrate
  exact dpLoop_stop _ _ _ _ _ _ _ (le_refl 0)


/-! ## Claim theorems -/

/-- C1: for every state vector `y` with nonzero position magnitude, both
files' `Orbit::system` return a derivative whose first three components are
the velocity components `y 3, y 4, y 5` and whose last three components are
`-mu * y i / r^3` with `r = sqrt(y0^2 + y1^2 + y2^2)`; and the two files'
derivative functions agree. -/
theorem system_matches_two_body_dynamics (mu t : ℝ) (y : StateVec)
    (_hr : posMagnitude y ≠ 0) :
    ((LibRs.Orbit.mk mu).system t y 0 = y 3 ∧
      (LibRs.Orbit.mk mu).system t y 1 = y 4 ∧
      (LibRs.Orbit.mk mu).system t y 2 = y 5 ∧
      (LibRs.Orbit.mk mu).system t y 3 = -mu * y 0 / posMagnitude y ^ 3 ∧
      (LibRs.Orbit.mk mu).system t y 4 = -mu * y 1 / posMagnitude y ^ 3 ∧
      (LibRs.Orbit.mk mu).system t y 5 = -mu * y 2 / posMagnitude y ^ 3) ∧
    (PropagateRs.Orbit.mk mu).system t y = (LibRs.Orbit.mk mu).system t y := by
  have hd : (y 0 ^ (2 : ℝ) + y 1 ^ (2 : ℝ) + y 2 ^ (2 : ℝ)) ^ ((3 : ℝ) / 2) =
      posMagnitude y ^ 3 := by
    rw [rpow_two_eq_sq, rpow_two_eq_sq, rpow_two_eq_sq, posMagnitude]
    exact rpow_three_halves _ (by positivity)
  refine ⟨⟨rfl, rfl, rfl, ?_, ?_, ?_⟩, rfl⟩
  · show -mu * y 0 / (y 0 ^ (2 : ℝ) + y 1 ^ (2 : ℝ) + y 2 ^ (2 : ℝ)) ^ ((3 : ℝ) / 2) = _
    rw [hd]
  · show -mu * y 1 / (y 0 ^ (2 : ℝ) + y 1 ^ (2 : ℝ) + y 2 ^ (2 : ℝ)) ^ ((3 : ℝ) / 2) = _
    rw [hd]
  · show -mu * y 2 / (y 0 ^ (2 : ℝ) + y 1 ^ (2 : ℝ) + y 2 ^ (2 : ℝ)) ^ ((3 : ℝ) / 2) = _
    rw [hd]

theorem system_matches_two_body_dynamics_witness :
    posMagnitude unitX ≠ 0 ∧
    (((LibRs.Orbit.mk 1).system 0 unitX 0 = unitX 3 ∧
       (LibRs.Orbit.mk 1).system 0 unitX 1 = unitX 4 ∧
       (LibRs.Orbit.mk 1).system 0 unitX 2 = unitX 5 ∧
       (LibRs.Orbit.mk 1).system 0 unitX 3 = -1 * unitX 0 / posMagnitude unitX ^ 3 ∧
       (LibRs.Orbit.mk 1).system 0 unitX 4 = -1 * unitX 1 / posMagnitude unitX ^ 3 ∧
       (LibRs.Orbit.mk 1).system 0 unitX 5 = -1 * unitX 2 / posMagnitude unitX ^ 3) ∧
      (PropagateRs.Orbit.mk 1).system 0 unitX = (LibRs.Orbit.mk 1).system 0 unitX) :=
  ⟨posMagnitude_unitX, system_matches_two_body_dynamics 1 0 unitX posMagnitude_unitX⟩

/-- C2 counterexample: at the concrete singular input (the zero state, whose
position magnitude is exactly zero) the derivative evaluation of
`Orbit::system` does not fail with `SingularState` — it returns normally,
because the source performs no singularity check and the method has no
error path at all. -/
theorem system_zero_state_not_singular :
    LibRs.Orbit.systemRun (LibRs.Orbit.mk (1.327e11)) 0 zeroState ≠
      Except.error IntegrationError.SingularState := by
  simp [LibRs.Orbit.systemRun]

/-- C2 amended: the derivative evaluation of `Orbit::system` (both files)
never fails: for every input, including states whose position magnitude is
below any epsilon, the evaluation returns a derivative vector computed by
the unguarded division; no `SingularState` error exists in the code. -/
theorem system_never_fails (oL : LibRs.Orbit) (oP : PropagateRs.Orbit)
    (t : ℝ) (y : StateVec) :
    (∃ dy, oL.systemRun t y = Except.ok dy) ∧
      (∃ dy, oP.systemRun t y = Except.ok dy) :=
  ⟨⟨_, rfl⟩, ⟨_, rfl⟩⟩

/-- C3 counterexample: on a failing integration result, `propagate`'s
result handling does not return the error value to the caller — it aborts
the process (Rust `expect`). -/
theorem propagate_error_not_returned :
    propagatePlumbing (Except.error IntegrationError.MaxStepsExceeded)
        "ERROR: Unable to integrate provided parameters." ≠
      RunOutcome.err IntegrationError.MaxStepsExceeded := by
  simp [propagatePlumbing, expectOutcome, RunOutcome.map]

/-- C3 amended: whenever the integration inside `propagate` fails with any
error, `propagate` panics with the source's fixed message — a process
abort — instead of returning the error as a `Result`. -/
theorem propagate_panics_on_integration_failure
    (r : Except IntegrationError (List (ℝ × StateVec))) (msg : String)
    (e : IntegrationError) (h : r = Except.error e) :
    propagatePlumbing r msg = RunOutcome.panic msg := by
  subst h; rfl

theorem propagate_panics_on_integration_failure_witness :
    (Except.error IntegrationError.StepSizeUnderflow :
        Except IntegrationError (List (ℝ × StateVec))) =
      Except.error IntegrationError.StepSizeUnderflow ∧
    propagatePlumbing (Except.error IntegrationError.StepSizeUnderflow)
        "ERROR: Unable to integrate provided parameters." =
      RunOutcome.panic "ERROR: Unable to integrate provided parameters." :=
  ⟨rfl, propagate_panics_on_integration_failure _
    "ERROR: Unable to integrate provided parameters." _ rfl⟩

/-- C8: the derivative evaluation of `Orbit::system` (both files) depends
only on the gravitational parameter `mu` and the state `y`: two models with
equal `mu`, evaluated at arbitrary (even different) times, produce equal
derivatives.  In particular the time argument is unused and there is no
mutable model state. -/
theorem system_depends_only_on_mu_and_state
    (oL oL' : LibRs.Orbit) (oP oP' : PropagateRs.Orbit) (t t' : ℝ) (y : StateVec)
    (hL : oL.mu = oL'.mu) (hP : oP.mu = oP'.mu) :
    oL.system t y = oL'.system t' y ∧ oP.system t y = oP'.system t' y := by
  have heL : oL = oL' := by cases oL; cases oL'; simpa using hL
  have heP : oP = oP' := by cases oP; cases oP'; simpa using hP
  subst heL; subst heP
  exact ⟨rfl, rfl⟩

theorem system_depends_only_on_mu_and_state_witness :
    (LibRs.Orbit.mk 2).mu = (LibRs.Orbit.mk 2).mu ∧
    (PropagateRs.Orbit.mk 2).mu = (PropagateRs.Orbit.mk 2).mu ∧
    ((LibRs.Orbit.mk 2).system 0 unitX = (LibRs.Orbit.mk 2).system 1 unitX ∧
      (PropagateRs.Orbit.mk 2).system 0 unitX = (PropagateRs.Orbit.mk 2).system 1 unitX) :=
  ⟨rfl, rfl, system_depends_only_on_mu_and_state
    (LibRs.Orbit.mk 2) (LibRs.Orbit.mk 2) (PropagateRs.Orbit.mk 2) (PropagateRs.Orbit.mk 2)
    0 1 unitX rfl rfl⟩

/-- C9: both `propagate` functions are deterministic — two calls with equal
inputs return equal trajectories.  The embedding is a pure function of its
arguments, matching the source, which reads no shared mutable state and
performs no I/O. -/
theorem propagate_deterministic (sv sv' : StateVec) (tof tof' : ℝ)
    (hsv : sv = sv') (htof : tof = tof') :
    LibRs.propagate sv = LibRs.propagate sv' ∧
      PropagateRs.propagate sv tof = PropagateRs.propagate sv' tof' := by
  subst hsv; subst htof
  exact ⟨rfl, rfl⟩

theorem propagate_deterministic_witness :
    zeroState = zeroState ∧ (0 : ℝ) = 0 ∧
    (LibRs.propagate zeroState = LibRs.propagate zeroState ∧
      PropagateRs.propagate zeroState 0 = PropagateRs.propagate zeroState 0) :=
  ⟨rfl, rfl, propagate_deterministic zeroState zeroState 0 0 rfl rfl⟩

/-- C10: the two near-duplicate implementations are equivalent — for every
initial state vector, `propagate` of `src/lib.rs` returns exactly what
`propagate` of `src/propagate.rs` returns at time of flight
`6.189400 * 86400` seconds: both use `mu = 1.327e11`, `rtol = 1e-6`,
`atol = 1e-8`, `t_start = 0`, initial step `10.0`, and identical derivative
functions. -/
theorem propagate_files_equivalent (sv : StateVec) :
    LibRs.propagate sv = PropagateRs.propagate sv (6.189400 * 86400.0) := rfl

/-- C6: every trajectory produced by a successful `propagate` integration
(forward time of flight) has strictly increasing sample times whose last
time equals the time of flight exactly; `propagate` returns exactly the
states of those samples (the source discards the times). -/
theorem trajectory_times_strictly_increasing (sv : StateVec) (tof : ℝ)
    (traj : List (ℝ × StateVec)) (htof : 0 ≤ tof)
    (hok : PropagateRs.integration sv tof = .ok traj) :
    (traj.map Prod.fst).Chain' (· < ·) ∧
      (traj.map Prod.fst).getLast? = some tof ∧
      PropagateRs.propagate sv tof = .ok (traj.map Prod.snd) := by
  have hok' := hok
  unfold PropagateRs.integration dopri5Integrate PropagateRs.config at hok
  dsimp only at hok
  obtain ⟨hc, hl, -⟩ :=
    dpLoop_ok_invariant _ _ _ _ _ _ _ _ (by norm_num) htof (by simp) (by simp) hok
  refine ⟨hc, hl, ?_⟩
  unfold PropagateRs.propagate propagatePlumbing
  rw [hok']
  rfl

theorem trajectory_times_strictly_increasing_witness :
    (0 : ℝ) ≤ 0 ∧
    PropagateRs.integration zeroState 0 = .ok [((0 : ℝ), zeroState)] ∧
    (([((0 : ℝ), zeroState)].map Prod.fst).Chain' (· < ·) ∧
      ([((0 : ℝ), zeroState)].map Prod.fst).getLast? = some 0 ∧
      PropagateRs.propagate zeroState 0 = .ok ([((0 : ℝ), zeroState)].map Prod.snd)) :=
  ⟨le_refl 0, integration_zero_tof zeroState,
    trajectory_times_strictly_increasing zeroState 0 _ (le_refl 0)
      (integration_zero_tof zeroState)⟩

/-- C7: every trajectory produced by a successful `propagate` integration
begins with the sample `(t_start, initial_state)` — time `0` and the
caller-supplied state unchanged — and `propagate` returns exactly the
states of those samples, so its first state is the initial state. -/
theorem first_sample_is_initial_state (sv : StateVec) (tof : ℝ)
    (traj : List (ℝ × StateVec))
    (hok : PropagateRs.integration sv tof = .ok traj) :
    traj.head? = some ((0 : ℝ), sv) ∧
      PropagateRs.propagate sv tof = .ok (traj.map Prod.snd) := by
  have hok' := hok
  unfold PropagateRs.integration dopri5Integrate PropagateRs.config at hok
  dsimp only at hok
  obtain ⟨hd, -⟩ := dpLoop_ok_head _ _ _ _ _ _ _ _ (by simp) hok
  constructor
  · rw [hd]; rfl
  · unfold PropagateRs.propagate propagatePlumbing
    rw [hok']
    rfl

theorem first_sample_is_initial_state_witness :
    PropagateRs.integration zeroState 0 = .ok [((0 : ℝ), zeroState)] ∧
    ([((0 : ℝ), zeroState)].head? = some ((0 : ℝ), zeroState) ∧
      PropagateRs.propagate zeroState 0 = .ok ([((0 : ℝ), zeroState)].map Prod.snd)) :=
  ⟨integration_zero_tof zeroState,
    first_sample_is_initial_state zeroState 0 _ (integration_zero_tof zeroState)⟩

/-- C5: if any of `rtol`, `atol`, `initial_step`, `max_steps` supplied to
the specification's parameterized entry point is non-positive, the call
fails with `InvalidConfig` — eagerly, for every dynamics function and
initial state, without the stepping loop running. -/
theorem invalid_config_detected_eagerly (f : ℝ → StateVec → StateVec)
    (initial_state : StateVec) (t_start t_end initial_step rtol atol : ℝ)
    (max_steps : ℕ)
    (hbad : rtol ≤ 0 ∨ atol ≤ 0 ∨ initial_step ≤ 0 ∨ max_steps = 0) :
    specPropagateWith f initial_state t_start t_end initial_step rtol atol max_steps =
      .error .InvalidConfig := by
  unfold specPropagateWith
  rw [if_pos hbad]

theorem invalid_config_detected_eagerly_witness :
    ((0 : ℝ) ≤ 0 ∨ (1e-8 : ℝ) ≤ 0 ∨ (10 : ℝ) ≤ 0 ∨ (1000 : ℕ) = 0) ∧
    specPropagateWith (fun _ y => y) zeroState 0 86400 10 0 (1e-8) 1000 =
      .error .InvalidConfig :=
  ⟨Or.inl (le_refl 0),
    invalid_config_detected_eagerly (fun _ y => y) zeroState 0 86400 10 0 (1e-8) 1000
      (Or.inl (le_refl 0))⟩
